import Mathlib

/-!
Shallow embedding of macrofactor-cli (src/src/main.rs) for checking its
specification. Pure data and control flow of the command handlers are
translated into executable Lean definitions; file-system and network effects
are modelled explicitly: a command handler returns `Except CliError r`, where
`r` carries the request a success path hands to the network layer, and every
error return means no write and no network call was performed (in the Rust
code the `?`/`bail!` returns happen before the corresponding calls).
Floating-point macro arithmetic is modelled over ℚ, keeping the exact
expression structure of the source.
-/

/-- Calendar date, days-since-epoch view of chrono NaiveDate. Only equality
and ordering of dates matter to the embedded code paths. -/
abbrev NaiveDate := Int

/-- Wall-clock time of day, as in chrono NaiveTime restricted to whole
seconds, which is all the CLI constructs. -/
structure NaiveTime where
  hour : Nat
  minute : Nat
  second : Nat
deriving Repr, DecidableEq

/-- chrono NaiveTime.from_hms_opt: defined exactly for hour < 24,
minute < 60, second < 60. -/
def NaiveTime.fromHmsOpt (hour minute second : Nat) : Option NaiveTime :=
  if hour < 24 ∧ minute < 60 ∧ second < 60 then
    some ⟨hour, minute, second⟩
  else
    none

/-- Date plus time of day, as in chrono NaiveDateTime. -/
structure NaiveDateTime where
  date : NaiveDate
  time : NaiveTime
deriving Repr, DecidableEq

/-- Ambient local-time facts the process observes: the current local
datetime (Local::now), and the partial map taking a naive local datetime to
its unique resolution in the local zone
(Local.from_local_datetime(..).single(): none when the wall-clock time is
nonexistent or ambiguous across a clock transition). -/
structure LocalEnv where
  now : NaiveDateTime
  single : NaiveDateTime → Option NaiveDateTime

/-- Error values raised by the embedded command handlers, one constructor
per distinct anyhow bail!/context site of main.rs. `panicked` stands for a
reachable unwrap() on None, which in Rust would abort the process. -/
inductive CliError
  | notLoggedIn
  | invalidConfig
  | noSearchCache
  | invalidSearchCache
  | timeFormat
  | parseIntError
  | invalidTime
  | ambiguousLocalTime
  | loginFailed (body : String)
  | noRefreshToken
  | invalidFoodIndex (foodIndex nresults : Nat)
  | invalidServingIndex (serving nservings : Nat)
  | panicked
deriving Repr, DecidableEq

/-- User-visible message of each error, matching the literal strings of
main.rs. -/
def CliError.msg : CliError → String
  | .notLoggedIn => "Not logged in. Run `macrofactor-cli login` first."
  | .invalidConfig => "Invalid config file"
  | .noSearchCache => "No search results cached. Run `search-food` first."
  | .invalidSearchCache => "Invalid search cache"
  | .timeFormat => "--time must be in HH:MM format"
  | .parseIntError => "invalid digit found in string"
  | .invalidTime => "Invalid time"
  | .ambiguousLocalTime => "Ambiguous local time"
  | .loginFailed body => "Login failed: " ++ body
  | .noRefreshToken => "No refresh token in response"
  | .invalidFoodIndex i n =>
      "Invalid food index " ++ toString i ++ ". Last search had " ++
        toString n ++ " results."
  | .invalidServingIndex s n =>
      "Invalid serving index " ++ toString s ++ ". Food has " ++
        toString n ++ " servings."
  | .panicked => "called Option::unwrap on a None value"

/-- Rust str::split with separator char c, as used on the --time argument:
splits into the (possibly empty) runs between occurrences of c; the empty
string yields one empty field. -/
def splitChar (c : Char) (s : String) : List String :=
  (s.toList.foldr
    (fun ch acc =>
      if ch = c then [] :: acc
      else
        match acc with
        | h :: t => (ch :: h) :: t
        | [] => [[ch]])
    [[]]).map fun l => String.mk l

/-- Rust str::parse::<u32>: an optional leading plus sign, then one or more
ascii digits, value below 2^32; anything else is a parse error. -/
def parseU32 (s : String) : Option Nat :=
  let cs :=
    match s.toList with
    | '+' :: rest => rest
    | cs => cs
  if cs = [] then none
  else if cs.all Char.isDigit then
    let v := cs.foldl (fun a c => a * 10 + (c.toNat - 48)) 0
    if v < 4294967296 then some v else none
  else none

/-- make_logged_at of main.rs: combine the target date with a --time HH:MM
argument in the local zone, or with the current time (date = today), or with
local noon (date other than today). A `.error .panicked` result marks the
unwrap() on `date.and_hms_opt(12, 0, 0)`. -/
def makeLoggedAt (env : LocalEnv) (date : NaiveDate) (time : Option String) :
    Except CliError NaiveDateTime :=
  match time with
  | some t =>
    match splitChar ':' t with
    | [hs, ms] =>
      match parseU32 hs with
      | none => .error .parseIntError
      | some hour =>
        match parseU32 ms with
        | none => .error .parseIntError
        | some minute =>
          match NaiveTime.fromHmsOpt hour minute 0 with
          | none => .error .invalidTime
          | some nt =>
            match env.single ⟨date, nt⟩ with
            | some dt => .ok dt
            | none => .error .ambiguousLocalTime
    | _ => .error .timeFormat
  | none =>
    if date = env.now.date then .ok env.now
    else
      match NaiveTime.fromHmsOpt 12 0 0 with
      | none => .error .panicked
      | some nt =>
        match env.single ⟨date, nt⟩ with
        | some dt => .ok dt
        | none => .error .ambiguousLocalTime

/-- Predicate picking out the embedded marker of a Rust panic in a
make_logged_at result. -/
def isPanicResult : Except CliError NaiveDateTime → Bool
  | .error .panicked => true
  | _ => false

/-- macro_factor_api FoodServing, as constructed and consumed in main.rs: a
named serving option with its gram weight. -/
structure FoodServing where
  description : String
  amount : ℚ
  gram_weight : ℚ
deriving Repr, DecidableEq

/-- macro_factor_api SearchFoodResult, as consumed in main.rs: macros on a
per-100g basis, an optional default serving and the listed serving
options. -/
structure SearchFoodResult where
  name : String
  brand : Option String
  branded : Bool
  calories_per_100g : ℚ
  protein_per_100g : ℚ
  carbs_per_100g : ℚ
  fat_per_100g : ℚ
  default_serving : Option FoodServing
  servings : List FoodServing
deriving Repr, DecidableEq

/-- Persisted credential config of main.rs. -/
structure Config where
  refresh_token : String
deriving Repr, DecidableEq

/-- Subtraction of 1 on a 64-bit usize with release-build wrapping
semantics, as in `let idx = serving - 1` of main.rs. For 1 ≤ n < 2^64 this
is the ordinary n - 1. -/
def usizeSub1 (n : Nat) : Nat :=
  (n + (2 ^ 64 - 1)) % 2 ^ 64

/-- Serving selection of Commands::LogSearchedFood (main.rs lines 511-526):
index 1 takes the default serving, else the first listed serving, else a
synthetic 100g serving; any other index i takes entry i - 1 of the serving
list and fails when out of bounds. -/
def resolveServing (food : SearchFoodResult) (serving : Nat) :
    Except CliError FoodServing :=
  if serving = 1 then
    .ok ((food.default_serving.or food.servings.head?).getD
      ⟨"100g", 1, 100⟩)
  else
    let idx := usizeSub1 serving
    match food.servings.get? idx with
    | some fs => .ok fs
    | none => .error (.invalidServingIndex serving food.servings.length)

/-- Request record a successful Commands::LogSearchedFood run hands to the
network write, together with the scale and macro values main.rs computes
for the success report (lines 532 and 542-549). -/
structure LogWrite where
  loggedAt : NaiveDateTime
  food : SearchFoodResult
  serving : FoodServing
  quantity : ℚ
  refreshToken : String
  scale : ℚ
  calories : ℚ
  protein : ℚ
  carbs : ℚ
  fat : ℚ
deriving Repr, DecidableEq

/-- Modelled from the spec: the body of MacroFactorClient.log_searched_food
is outside src/; section 4.4 of the spec fixes the macros it writes as the
per-100g values times the scale factor (gram weight / 100) × quantity. -/
def MacroFactorClient.loggedMacros (food : SearchFoodResult)
    (fs : FoodServing) (quantity : ℚ) : ℚ × ℚ × ℚ × ℚ :=
  let scale := fs.gram_weight / 100 * quantity
  (food.calories_per_100g * scale, food.protein_per_100g * scale,
    food.carbs_per_100g * scale, food.fat_per_100g * scale)

/-- Tail of Commands::LogSearchedFood after the cached food is selected:
resolve the serving, load the credential (get_client), build the timestamp,
then perform the write; the scale and reported macros follow main.rs lines
532 and 542-549. -/
def logSearchedFoodWithFood (food : SearchFoodResult)
    (cfg : Except CliError Config) (env : LocalEnv) (date : NaiveDate)
    (serving : Nat) (quantity : ℚ) (time : Option String) :
    Except CliError LogWrite :=
  match resolveServing food serving with
  | .error e => .error e
  | .ok food_serving =>
    match cfg with
    | .error e => .error e
    | .ok config =>
      match makeLoggedAt env date time with
      | .error e => .error e
      | .ok logged_at =>
        .ok
          { loggedAt := logged_at
            food := food
            serving := food_serving
            quantity := quantity
            refreshToken := config.refresh_token
            scale := food_serving.gram_weight / 100 * quantity
            calories :=
              food.calories_per_100g * (food_serving.gram_weight / 100 * quantity)
            protein :=
              food.protein_per_100g * (food_serving.gram_weight / 100 * quantity)
            carbs :=
              food.carbs_per_100g * (food_serving.gram_weight / 100 * quantity)
            fat :=
              food.fat_per_100g * (food_serving.gram_weight / 100 * quantity) }

/-- Commands::LogSearchedFood (main.rs lines 503-551): load the search
cache, validate the 1-based food index against its length, select the
food, then continue with serving resolution and the write. Every `.error`
result is returned before the network write happens. -/
def logSearchedFoodCmd (cache : Except CliError (List SearchFoodResult))
    (cfg : Except CliError Config) (env : LocalEnv) (date : NaiveDate)
    (food_index serving : Nat) (quantity : ℚ) (time : Option String) :
    Except CliError LogWrite :=
  match cache with
  | .error e => .error e
  | .ok results =>
    if food_index = 0 ∨ results.length < food_index then
      .error (.invalidFoodIndex food_index results.length)
    else
      match results.get? (food_index - 1) with
      | none => .error .panicked
      | some food =>
        logSearchedFoodWithFood food cfg env date serving quantity time

/-- Observable part of the identity-exchange HTTP response consumed by
Commands::Login: the success flag of the status, the raw body text, and the
value of the refreshToken field when the body parses and holds one. -/
structure LoginResponse where
  success : Bool
  body : String
  refreshTokenField : Option String
deriving Repr, DecidableEq

/-- Pure decision core of Commands::Login (main.rs lines 246-272): a
non-success status fails with the raw body; otherwise the refreshToken
field becomes the config to persist, its absence failing. -/
def loginStep (resp : LoginResponse) : Except CliError Config :=
  if resp.success = false then
    .error (.loginFailed resp.body)
  else
    match resp.refreshTokenField with
    | some rt => .ok ⟨rt⟩
    | none => .error .noRefreshToken

/-- Commands::Login together with its effect on the credential file:
save_config runs exactly on the success path, overwriting the previous
config; every error leaves the file as it was. -/
def loginRun (oldCfg : Option Config) (resp : LoginResponse) :
    Except CliError Unit × Option Config :=
  match loginStep resp with
  | .ok c => (.ok (), some c)
  | .error e => (.error e, oldCfg)

/-- load_config of main.rs (lines 162-167): a missing file fails with the
not-logged-in context, an unparsable file with the invalid-config context;
`parse` stands for serde_json deserialization of Config, passed in because
serde is an external collaborator. -/
def loadConfig (file : Option String) (parse : String → Option Config) :
    Except CliError Config :=
  match file with
  | none => .error .notLoggedIn
  | some data =>
    match parse data with
    | some c => .ok c
    | none => .error .invalidConfig

/-- Consume a fixed character list off the front of another, or fail. -/
def stripPre : List Char → List Char → Option (List Char)
  | [], cs => some cs
  | _ :: _, [] => none
  | p :: ps, c :: cs => if p = c then stripPre ps cs else none

/-- Consume a fixed character list off the back of another, or fail. -/
def stripSuf (suf cs : List Char) : Option (List Char) :=
  (stripPre suf.reverse cs.reverse).map List.reverse

/-- Conservative executable stand-in for serde_json deserialization of
Config: accepts exactly the canonical pretty serialization save_config
writes, with a token free of quotes and backslashes, and rejects everything
else. Every string it accepts serde accepts too, and plain garbage is
rejected by both. -/
def parseConfigJson (s : String) : Option Config :=
  match stripPre "\x7b\n  \"refresh_token\": \"".toList s.toList with
  | none => none
  | some rest =>
    match stripSuf ("\"\n" ++ "\x7d").toList rest with
    | none => none
    | some tok =>
      if tok.all fun c => !(c = '"' || c = '\\') then
        some ⟨String.mk tok⟩
      else none

/-- Effect of one Commands::SearchFood run on the on-disk search cache
(main.rs lines 444-458): an empty result list returns before
save_search_cache, leaving the cache untouched; otherwise the cache is
overwritten with the result list. -/
def searchFoodCache (prevCache : Option (List SearchFoodResult))
    (results : List SearchFoodResult) : Option (List SearchFoodResult) :=
  if results.isEmpty then prevCache
  else some results

/-- Network read request a range command issues. -/
inductive NetCall
  | getNutrition (startDate endDate : NaiveDate)
  | getWeightEntries (startDate endDate : NaiveDate)
  | getSteps (startDate endDate : NaiveDate)
deriving Repr, DecidableEq

/-- Commands::Nutrition (main.rs lines 330-334): after get_client, both
range endpoints default to today and the query is issued unconditionally;
no comparison of the endpoints happens. -/
def nutritionCommand (todayD : NaiveDate) (cfg : Except CliError Config)
    (startArg endArg : Option NaiveDate) : Except CliError NetCall :=
  match cfg with
  | .error e => .error e
  | .ok _ => .ok (.getNutrition (startArg.getD todayD) (endArg.getD todayD))

/-- Commands::Weight (main.rs lines 390-394): the start defaults to seven
days ago, the end to today, and the query is issued unconditionally. -/
def weightCommand (todayD : NaiveDate) (cfg : Except CliError Config)
    (startArg endArg : Option NaiveDate) : Except CliError NetCall :=
  match cfg with
  | .error e => .error e
  | .ok _ =>
    .ok (.getWeightEntries (startArg.getD (todayD - 7)) (endArg.getD todayD))

/-- Commands::Steps (main.rs lines 411-415): same shape as Weight. -/
def stepsCommand (todayD : NaiveDate) (cfg : Except CliError Config)
    (startArg endArg : Option NaiveDate) : Except CliError NetCall :=
  match cfg with
  | .error e => .error e
  | .ok _ => .ok (.getSteps (startArg.getD (todayD - 7)) (endArg.getD todayD))

/-- Flags the clap derive marks required on the LogNutrition command
(main.rs lines 129-141): every field is a plain value with no Option type
and no default, so all five must be supplied. -/
def logNutritionRequiredFlags : List String :=
  ["date", "calories", "protein", "carbs", "fat"]

/-- clap acceptance of a command invocation: it parses only when every
required flag is among the provided ones. -/
def clapAccepts (required provided : List String) : Bool :=
  required.all fun r => provided.contains r

/-- Arguments the Commands::LogNutrition arm passes to
MacroFactorClient.log_nutrition, whose macro parameters are Option-typed. -/
structure NutritionWrite where
  date : NaiveDate
  calories : ℚ
  protein : Option ℚ
  carbs : Option ℚ
  fat : Option ℚ
deriving Repr, DecidableEq

/-- Commands::LogNutrition dispatch (main.rs lines 598-600): every macro is
wrapped in Some before the call. -/
def logNutritionDispatch (date : NaiveDate)
    (calories protein carbs fat : ℚ) : NutritionWrite :=
  { date := date
    calories := calories
    protein := some protein
    carbs := some carbs
    fat := some fat }

/-- Concrete search result used by closed witnesses and counterexamples. -/
def sampleFood : SearchFoodResult :=
  { name := "Oats"
    brand := none
    branded := false
    calories_per_100g := 389
    protein_per_100g := 17
    carbs_per_100g := 66
    fat_per_100g := 7
    default_serving := some ⟨"1 cup", 1, 81⟩
    servings := [⟨"1 cup", 1, 81⟩, ⟨"1 tbsp", 1, 6⟩] }

/-- Concrete local environment used by closed witnesses: every naive local
datetime resolves uniquely to itself. -/
def sampleEnv : LocalEnv :=
  { now := ⟨0, ⟨10, 30, 0⟩⟩
    single := fun nd => some nd }

/-- Canonical serialization of a concrete config, for witnesses. -/
def sampleConfigStr : String := "\x7b\n  \"refresh_token\": \"tok\"\n\x7d"

lemma isPanicResult_eq_false_iff (r : Except CliError NaiveDateTime) :
    isPanicResult r = false ↔ r ≠ .error .panicked := by
  cases r with
  | ok a => simp [isPanicResult]
  | error e => cases e <;> simp [isPanicResult]

lemma fromHmsOpt_noon : NaiveTime.fromHmsOpt 12 0 0 = some ⟨12, 0, 0⟩ := rfl

lemma usizeSub1_eq (n : Nat) (h1 : 1 ≤ n) (h2 : n < 2 ^ 64) :
    usizeSub1 n = n - 1 := by
  unfold usizeSub1
  have hpow : (2 : Nat) ^ 64 = 18446744073709551616 := by norm_num
  rw [hpow] at h2 ⊢
  have hsplit : n + (18446744073709551616 - 1) =
      (n - 1) + 1 * 18446744073709551616 := by omega
  rw [hsplit, Nat.add_mul_mod_self_right]
  exact Nat.mod_eq_of_lt (by omega)

/-- C10: make_logged_at is total: for every date and optional time string it
returns a timestamp or an error and never reaches the panic marker; in
particular the unchecked construction of local noon on the no-time,
non-today path is always defined. -/
theorem make_logged_at_total (env : LocalEnv) (date : NaiveDate)
    (time : Option String) :
    isPanicResult (makeLoggedAt env date time) = false := by
  rw [isPanicResult_eq_false_iff]
  unfold makeLoggedAt
  rcases time with _ | t
  · by_cases hd : date = env.now.date
    · simp [hd]
    · rw [if_neg hd, fromHmsOpt_noon]
      rcases hsing : env.single ⟨date, ⟨12, 0, 0⟩⟩ with _ | dt <;>
        simp [hsing]
  · repeat' split
    all_goals simp_all

/-- C4: make_logged_at combines a given HH:MM time with the target date in
the local zone, failing hard when the local time does not resolve uniquely;
with no time it uses the current local time when the date is today and
local noon of the date otherwise. -/
theorem make_logged_at_spec (env : LocalEnv) (d : NaiveDate)
    (t hs ms : String) (h m : Nat)
    (ht : splitChar ':' t = [hs, ms])
    (hh : parseU32 hs = some h) (hm : parseU32 ms = some m)
    (hh24 : h < 24) (hm60 : m < 60) :
    (makeLoggedAt env d (some t) =
      match env.single ⟨d, ⟨h, m, 0⟩⟩ with
      | some dt => .ok dt
      | none => .error .ambiguousLocalTime)
    ∧ (d = env.now.date → makeLoggedAt env d none = .ok env.now)
    ∧ (d ≠ env.now.date → makeLoggedAt env d none =
        match env.single ⟨d, ⟨12, 0, 0⟩⟩ with
        | some dt => .ok dt
        | none => .error .ambiguousLocalTime) := by
  have hfrom : NaiveTime.fromHmsOpt h m 0 = some ⟨h, m, 0⟩ := by
    unfold NaiveTime.fromHmsOpt
    rw [if_pos ⟨hh24, hm60, by norm_num⟩]
  refine ⟨?_, ?_, ?_⟩
  · show (match splitChar ':' t with
      | [hs, ms] =>
        match parseU32 hs with
        | none => Except.error CliError.parseIntError
        | some hour =>
          match parseU32 ms with
          | none => Except.error CliError.parseIntError
          | some minute =>
            match NaiveTime.fromHmsOpt hour minute 0 with
            | none => Except.error CliError.invalidTime
            | some nt =>
              match env.single ⟨d, nt⟩ with
              | some dt => Except.ok dt
              | none => Except.error CliError.ambiguousLocalTime
      | _ => Except.error CliError.timeFormat) = _
    rw [ht]
    show (match parseU32 hs with
      | none => Except.error CliError.parseIntError
      | some hour =>
        match parseU32 ms with
        | none => Except.error CliError.parseIntError
        | some minute =>
          match NaiveTime.fromHmsOpt hour minute 0 with
          | none => Except.error CliError.invalidTime
          | some nt =>
            match env.single ⟨d, nt⟩ with
            | some dt => Except.ok dt
            | none => Except.error CliError.ambiguousLocalTime) = _
    rw [hh, hm]
    show (match NaiveTime.fromHmsOpt h m 0 with
      | none => Except.error CliError.invalidTime
      | some nt =>
        match env.single ⟨d, nt⟩ with
        | some dt => Except.ok dt
        | none => Except.error CliError.ambiguousLocalTime) = _
    rw [hfrom]
  · intro hd
    show (if d = env.now.date then Except.ok env.now else _) = _
    rw [if_pos hd]
  · intro hd
    show (if d = env.now.date then Except.ok env.now else _) = _
    rw [if_neg hd]

/-- Closed instance of make_logged_at_spec at a concrete environment, date
and time string. -/
theorem make_logged_at_spec_witness :
    makeLoggedAt sampleEnv 3 (some "7:30") =
      (match sampleEnv.single ⟨3, ⟨7, 30, 0⟩⟩ with
       | some dt => Except.ok dt
       | none => Except.error CliError.ambiguousLocalTime) :=
  (make_logged_at_spec sampleEnv 3 "7:30" "7" "30" 7 30 rfl rfl rfl
    (by decide) (by decide)).1

/-- C2: serving index 1 resolves to the default serving, else the first
listed serving, else the synthetic 100g serving; index s ≥ 2 resolves to
entry s - 1 of the serving list, and fails with the invalid-serving error,
performing no write, when s - 1 is out of bounds. -/
theorem resolve_serving_spec (food : SearchFoodResult) (serving : Nat)
    (hs64 : serving < 2 ^ 64) :
    (resolveServing food 1 = .ok
      (match food.default_serving with
       | some ds => ds
       | none =>
         match food.servings with
         | fs :: _ => fs
         | [] => ⟨"100g", 1, 100⟩))
    ∧ (2 ≤ serving →
        (∀ fs, food.servings.get? (serving - 1) = some fs →
          resolveServing food serving = .ok fs)
        ∧ (food.servings.length ≤ serving - 1 →
            resolveServing food serving =
              .error (.invalidServingIndex serving food.servings.length)
            ∧ ∀ (cfg : Except CliError Config) (env : LocalEnv)
                (date : NaiveDate) (quantity : ℚ) (time : Option String)
                (results : List SearchFoodResult) (fi : Nat),
                results.get? (fi - 1) = some food →
                ¬(fi = 0 ∨ results.length < fi) →
                logSearchedFoodCmd (.ok results) cfg env date fi serving
                    quantity time =
                  .error (.invalidServingIndex serving
                    food.servings.length))) := by
  constructor
  · unfold resolveServing
    rw [if_pos rfl]
    rcases food.default_serving with _ | ds <;>
      rcases hserv : food.servings with _ | ⟨fs, rest⟩ <;>
      simp [Option.or, List.head?, hserv]
  · intro h2
    have hne : ¬serving = 1 := by omega
    have hidx : usizeSub1 serving = serving - 1 :=
      usizeSub1_eq serving (by omega) hs64
    constructor
    · intro fs hget
      unfold resolveServing
      rw [if_neg hne]
      simp only [hidx, hget]
    · intro hoob
      have hnone : food.servings.get? (serving - 1) = none :=
        List.get?_eq_none.mpr hoob
      have herr : resolveServing food serving =
          .error (.invalidServingIndex serving food.servings.length) := by
        unfold resolveServing
        rw [if_neg hne]
        simp only [hidx, hnone]
      refine ⟨herr, ?_⟩
      intro cfg env date quantity time results fi hfood hvalid
      unfold logSearchedFoodCmd
      show (if fi = 0 ∨ results.length < fi then
          Except.error (CliError.invalidFoodIndex fi results.length)
        else
          match results.get? (fi - 1) with
          | none => Except.error CliError.panicked
          | some food =>
            logSearchedFoodWithFood food cfg env date serving quantity
              time) = _
      rw [if_neg hvalid]
      show (match results.get? (fi - 1) with
        | none => Except.error CliError.panicked
        | some food =>
          logSearchedFoodWithFood food cfg env date serving quantity
            time) = _
      rw [hfood]
      show (match resolveServing food serving with
        | .error e => Except.error e
        | .ok food_serving => _) = _
      rw [herr]

/-- Closed instance of resolve_serving_spec on a concrete food: index 1
takes the default serving, index 3 of a 2-entry list fails, and the whole
command fails with that error. -/
theorem resolve_serving_spec_witness :
    resolveServing sampleFood 1 = .ok ⟨"1 cup", 1, 81⟩
    ∧ resolveServing sampleFood 3 = .error (.invalidServingIndex 3 2)
    ∧ logSearchedFoodCmd (.ok [sampleFood]) (.error .notLoggedIn) sampleEnv
        0 1 3 1 none = .error (.invalidServingIndex 3 2) := by
  have h := resolve_serving_spec sampleFood 3 (by norm_num)
  have h2 := (h.2 (by norm_num)).2 (by decide)
  exact ⟨h.1, h2.1,
    h2.2 (.error .notLoggedIn) sampleEnv 0 1 none [sampleFood] 1 rfl
      (by decide)⟩

/-- C3: the log-searched-food command rejects food index 0 and any index
above the cache length with the invalid-index error, independently of the
credential state and before the write; a valid 1-based index selects the
corresponding cached result and only then continues. -/
theorem log_searched_food_index_spec (results : List SearchFoodResult)
    (cfg : Except CliError Config) (env : LocalEnv) (date : NaiveDate)
    (fi serving : Nat) (q : ℚ) (time : Option String) :
    ((fi = 0 ∨ results.length < fi) →
      logSearchedFoodCmd (.ok results) cfg env date fi serving q time =
        .error (.invalidFoodIndex fi results.length))
    ∧ (1 ≤ fi → fi ≤ results.length →
        ∀ food, results.get? (fi - 1) = some food →
          logSearchedFoodCmd (.ok results) cfg env date fi serving q time =
            logSearchedFoodWithFood food cfg env date serving q time) := by
  constructor
  · intro hbad
    unfold logSearchedFoodCmd
    show (if fi = 0 ∨ results.length < fi then
        Except.error (CliError.invalidFoodIndex fi results.length)
      else
        match results.get? (fi - 1) with
        | none => Except.error CliError.panicked
        | some food =>
          logSearchedFoodWithFood food cfg env date serving q time) = _
    rw [if_pos hbad]
  · intro h1 hlen food hget
    unfold logSearchedFoodCmd
    show (if fi = 0 ∨ results.length < fi then
        Except.error (CliError.invalidFoodIndex fi results.length)
      else
        match results.get? (fi - 1) with
        | none => Except.error CliError.panicked
        | some food =>
          logSearchedFoodWithFood food cfg env date serving q time) = _
    rw [if_neg (by omega)]
    show (match results.get? (fi - 1) with
      | none => Except.error CliError.panicked
      | some food =>
        logSearchedFoodWithFood food cfg env date serving q time) = _
    rw [hget]

/-- Closed instance of log_searched_food_index_spec: index 2 on a 1-element
cache fails with the invalid-index error even with no credential, and index
1 selects the only cached food. -/
theorem log_searched_food_index_spec_witness :
    logSearchedFoodCmd (.ok [sampleFood]) (.error .notLoggedIn) sampleEnv
        0 2 1 1 none = .error (.invalidFoodIndex 2 1)
    ∧ logSearchedFoodCmd (.ok [sampleFood]) (.ok ⟨"tok"⟩) sampleEnv
        0 1 1 1 none =
      logSearchedFoodWithFood sampleFood (.ok ⟨"tok"⟩) sampleEnv 0 1 1
        none :=
  ⟨(log_searched_food_index_spec [sampleFood] (.error .notLoggedIn)
      sampleEnv 0 2 1 1 none).1 (by decide),
   (log_searched_food_index_spec [sampleFood] (.ok ⟨"tok"⟩) sampleEnv
      0 1 1 1 none).2 (by decide) (by decide) sampleFood rfl⟩

/-- C1: on the success path every reported macro, and every macro the
spec-modelled client write derives, is the per-100g value times
(gram weight / 100) × quantity; quantity 1 with gram weight 100 reproduces
the per-100g values exactly. -/
theorem log_searched_food_macros (food : SearchFoodResult)
    (fs : FoodServing) (config : Config) (env : LocalEnv)
    (date : NaiveDate) (serving : Nat) (q : ℚ) (time : Option String)
    (la : NaiveDateTime)
    (hserv : resolveServing food serving = .ok fs)
    (hla : makeLoggedAt env date time = .ok la) :
    ∃ w : LogWrite,
      logSearchedFoodWithFood food (.ok config) env date serving q time =
        .ok w
      ∧ w.serving = fs ∧ w.quantity = q
      ∧ w.calories = food.calories_per_100g * (fs.gram_weight / 100 * q)
      ∧ w.protein = food.protein_per_100g * (fs.gram_weight / 100 * q)
      ∧ w.carbs = food.carbs_per_100g * (fs.gram_weight / 100 * q)
      ∧ w.fat = food.fat_per_100g * (fs.gram_weight / 100 * q)
      ∧ MacroFactorClient.loggedMacros food fs q =
          (w.calories, w.protein, w.carbs, w.fat)
      ∧ (q = 1 → fs.gram_weight = 100 →
          w.calories = food.calories_per_100g
          ∧ w.protein = food.protein_per_100g
          ∧ w.carbs = food.carbs_per_100g
          ∧ w.fat = food.fat_per_100g) := by
  have hrun : logSearchedFoodWithFood food (.ok config) env date serving
      q time =
      .ok { loggedAt := la, food := food, serving := fs, quantity := q,
            refreshToken := config.refresh_token,
            scale := fs.gram_weight / 100 * q,
            calories := food.calories_per_100g * (fs.gram_weight / 100 * q),
            protein := food.protein_per_100g * (fs.gram_weight / 100 * q),
            carbs := food.carbs_per_100g * (fs.gram_weight / 100 * q),
            fat := food.fat_per_100g * (fs.gram_weight / 100 * q) } := by
    unfold logSearchedFoodWithFood
    rw [hserv]
    show (match makeLoggedAt env date time with
      | .error e => Except.error e
      | .ok logged_at =>
        (Except.ok
          { loggedAt := logged_at, food := food, serving := fs,
            quantity := q, refreshToken := config.refresh_token,
            scale := fs.gram_weight / 100 * q,
            calories := food.calories_per_100g * (fs.gram_weight / 100 * q),
            protein := food.protein_per_100g * (fs.gram_weight / 100 * q),
            carbs := food.carbs_per_100g * (fs.gram_weight / 100 * q),
            fat := food.fat_per_100g * (fs.gram_weight / 100 * q) } :
          Except CliError LogWrite)) = _
    rw [hla]
  refine ⟨_, hrun, rfl, rfl, rfl, rfl, rfl, rfl, ?_, ?_⟩
  · unfold MacroFactorClient.loggedMacros
    rfl
  · intro hq hg
    rw [hq, hg]
    norm_num

/-- Closed instance of log_searched_food_macros: logging the sample food
with its default 81g serving at quantity 2 reports 389 × (81 / 100 × 2)
calories. -/
theorem log_searched_food_macros_witness :
    ∃ w : LogWrite,
      logSearchedFoodWithFood sampleFood (.ok ⟨"tok"⟩) sampleEnv 0 1 2
          none = .ok w
      ∧ w.calories = 389 * (81 / 100 * 2) := by
  obtain ⟨w, hw, _, _, hcal, _⟩ :=
    log_searched_food_macros sampleFood ⟨"1 cup", 1, 81⟩ ⟨"tok"⟩ sampleEnv
      0 1 2 none sampleEnv.now rfl rfl
  exact ⟨w, hw, by rw [hcal]; norm_num [sampleFood]⟩

/-- C5: a login whose identity-exchange response has a non-success status
fails carrying the raw body and leaves the credential file unchanged; the
file is written only on success, from the refreshToken field. -/
theorem login_failure_no_write (oldCfg : Option Config)
    (resp : LoginResponse) :
    (resp.success = false →
      loginRun oldCfg resp = (.error (.loginFailed resp.body), oldCfg))
    ∧ (∀ rt, resp.success = true → resp.refreshTokenField = some rt →
        loginRun oldCfg resp = (.ok (), some ⟨rt⟩)) := by
  constructor
  · intro h
    unfold loginRun loginStep
    rw [h]
    simp
  · intro rt h hrt
    unfold loginRun loginStep
    rw [h, hrt]
    simp

/-- Closed instance of login_failure_no_write: a rejected exchange keeps
the old credential and surfaces the body, a successful one stores the
returned token. -/
theorem login_failure_no_write_witness :
    loginRun (some ⟨"old"⟩) ⟨false, "bad credentials", none⟩ =
      (.error (.loginFailed "bad credentials"), some ⟨"old"⟩)
    ∧ loginRun none ⟨true, "", some "rt1"⟩ = (.ok (), some ⟨"rt1"⟩) :=
  ⟨(login_failure_no_write (some ⟨"old"⟩)
      ⟨false, "bad credentials", none⟩).1 rfl,
   (login_failure_no_write none ⟨true, "", some "rt1"⟩).2 "rt1" rfl rfl⟩

/-- C6: evaluation of the three range commands at end < start: each one
still issues the network query with the inverted range, so no local
end-before-start rejection exists in the code. -/
theorem range_commands_no_order_check :
    (3 : NaiveDate) < 5
    ∧ nutritionCommand 0 (.ok ⟨"tok"⟩) (some 5) (some 3) =
        .ok (.getNutrition 5 3)
    ∧ weightCommand 0 (.ok ⟨"tok"⟩) (some 5) (some 3) =
        .ok (.getWeightEntries 5 3)
    ∧ stepsCommand 0 (.ok ⟨"tok"⟩) (some 5) (some 3) =
        .ok (.getSteps 5 3) :=
  ⟨by norm_num, rfl, rfl, rfl⟩

/-- C7 as stated fails: a search returning no results leaves the previous
cache in place instead of overwriting it with the empty list. -/
theorem search_cache_empty_counterexample :
    searchFoodCache (some [sampleFood]) [] = some [sampleFood]
    ∧ searchFoodCache (some [sampleFood]) [] ≠
        some ([] : List SearchFoodResult) := by
  refine ⟨rfl, ?_⟩
  rw [show searchFoodCache (some [sampleFood]) [] = some [sampleFood]
    from rfl]
  simp

/-- C7 amended: a search with a non-empty result list overwrites the cache
with exactly that list; a search with no results leaves the cache
unchanged. -/
theorem search_cache_overwrite (prev : Option (List SearchFoodResult))
    (results : List SearchFoodResult) :
    (results ≠ [] → searchFoodCache prev results = some results)
    ∧ (results = [] → searchFoodCache prev results = prev) := by
  constructor <;> intro h <;> unfold searchFoodCache <;>
    cases results <;> simp_all

/-- Closed instance of search_cache_overwrite: a non-empty search result
replaces the cache and an empty one preserves it. -/
theorem search_cache_overwrite_witness :
    searchFoodCache none [sampleFood] = some [sampleFood]
    ∧ searchFoodCache (some [sampleFood]) [] = some [sampleFood] :=
  ⟨(search_cache_overwrite none [sampleFood]).1 (by simp),
   (search_cache_overwrite (some [sampleFood]) []).2 rfl⟩

/-- C8 as stated fails: the CLI marks protein, carbs and fat required, so
an invocation omitting them does not parse, and a parsed invocation always
passes every macro as present. -/
theorem log_nutrition_omit_counterexample :
    clapAccepts logNutritionRequiredFlags ["date", "calories"] = false
    ∧ (logNutritionDispatch 0 100 1 2 3).protein = some 1
    ∧ (logNutritionDispatch 0 100 1 2 3).carbs = some 2
    ∧ (logNutritionDispatch 0 100 1 2 3).fat = some 3 :=
  ⟨by decide, rfl, rfl, rfl⟩

/-- C8 amended: the CLI log-nutrition command requires calories, protein,
carbs and fat all present, and hands every macro to the API wrapped as
present; only the underlying API signature allows omission. -/
theorem log_nutrition_all_required (d : NaiveDate) (c p cb f : ℚ)
    (provided : List String)
    (hacc : clapAccepts logNutritionRequiredFlags provided = true) :
    ("protein" ∈ provided ∧ "carbs" ∈ provided ∧ "fat" ∈ provided)
    ∧ (logNutritionDispatch d c p cb f).protein = some p
    ∧ (logNutritionDispatch d c p cb f).carbs = some cb
    ∧ (logNutritionDispatch d c p cb f).fat = some f := by
  unfold clapAccepts logNutritionRequiredFlags at hacc
  simp only [List.all_cons, List.all_nil, Bool.and_true,
    Bool.and_eq_true] at hacc
  exact ⟨⟨List.mem_of_elem_eq_true hacc.2.2.1,
    List.mem_of_elem_eq_true hacc.2.2.2.1,
    List.mem_of_elem_eq_true hacc.2.2.2.2⟩, rfl, rfl, rfl⟩

/-- Closed instance of log_nutrition_all_required at a full flag set. -/
theorem log_nutrition_all_required_witness :
    ("protein" ∈ ["date", "calories", "protein", "carbs", "fat"]
      ∧ "carbs" ∈ ["date", "calories", "protein", "carbs", "fat"]
      ∧ "fat" ∈ ["date", "calories", "protein", "carbs", "fat"])
    ∧ (logNutritionDispatch 0 100 1 2 3).protein = some 1
    ∧ (logNutritionDispatch 0 100 1 2 3).carbs = some 2
    ∧ (logNutritionDispatch 0 100 1 2 3).fat = some 3 :=
  log_nutrition_all_required 0 100 1 2 3
    ["date", "calories", "protein", "carbs", "fat"] (by decide)

/-- C9 as stated fails: an existing but unparsable credential file is
surfaced as the invalid-config message, not as the not-logged-in one. -/
theorem load_config_unparsable_counterexample :
    loadConfig (some "garbage") parseConfigJson = .error .invalidConfig
    ∧ CliError.msg .invalidConfig = "Invalid config file"
    ∧ CliError.msg .invalidConfig ≠
        "Not logged in. Run `macrofactor-cli login` first." :=
  ⟨rfl, rfl, by decide⟩

/-- C9 amended: loading fails with the not-logged-in message when the file
is absent and with the invalid-config message when it is unparsable, and
succeeds exactly when the file exists and parses as a config. -/
theorem load_config_spec (parse : String → Option Config)
    (file : Option String) :
    (file = none → loadConfig file parse = .error .notLoggedIn)
    ∧ (∀ s, file = some s → parse s = none →
        loadConfig file parse = .error .invalidConfig)
    ∧ (∀ s c, file = some s → parse s = some c →
        loadConfig file parse = .ok c)
    ∧ CliError.msg .notLoggedIn =
        "Not logged in. Run `macrofactor-cli login` first." := by
  refine ⟨?_, ?_, ?_, rfl⟩
  · intro h
    rw [h]
    rfl
  · intro s hfile hparse
    rw [hfile]
    show (match parse s with
      | some c => Except.ok c
      | none => Except.error CliError.invalidConfig) = _
    rw [hparse]
  · intro s c hfile hparse
    rw [hfile]
    show (match parse s with
      | some c => Except.ok c
      | none => Except.error CliError.invalidConfig) = _
    rw [hparse]

/-- Closed instance of load_config_spec: an absent file, an unparsable
file, and the canonical serialization of a token. -/
theorem load_config_spec_witness :
    loadConfig none parseConfigJson = .error .notLoggedIn
    ∧ loadConfig (some "junk") parseConfigJson = .error .invalidConfig
    ∧ loadConfig (some sampleConfigStr) parseConfigJson = .ok ⟨"tok"⟩ :=
  ⟨(load_config_spec parseConfigJson none).1 rfl,
   (load_config_spec parseConfigJson (some "junk")).2.1 "junk" rfl
     (by decide),
   (load_config_spec parseConfigJson (some sampleConfigStr)).2.2.1
     sampleConfigStr ⟨"tok"⟩ rfl (by decide)⟩

